import Mathlib

/-!
Verification of the session-authentication / middleware core of the
`rkgcloud/crud` web application.

The Go sources are shallowly embedded: the cookie-backed session is a record
of typed optional values (the persisted view of the gin session), handlers
and middleware are pure functions from session state (plus explicit inputs
standing for query parameters, external OAuth calls, the clock and the
rate-limiter store) to an HTTP response together with the updated session
state.  Responses record only the observable pieces the source writes:
status code, redirect target, JSON error body and rendered template.
-/

/-- The OAuth user profile, from `pkg/auth/types.go` (`LoggedInUser`). -/
structure LoggedInUser where
  id : String
  name : String
  email : String
  phone : String
  picture : String
deriving DecidableEq, Repr

/-- The zero value `auth.LoggedInUser{}` returned by `GetLoggedInUser` when
the session holds no user. -/
def emptyUser : LoggedInUser :=
  { id := "", name := "", email := "", phone := "", picture := "" }

/-- The persisted session contents, from `pkg/session/session.go`: the
`loggedInUser` and `stateToken` keys of the cookie-backed gin session
(flash keys are untouched by the operations verified here and omitted). -/
structure SessionData where
  loggedInUser : Option LoggedInUser
  stateToken : Option String
deriving DecidableEq, Repr

/-- A session with neither key set. -/
def emptySession : SessionData := { loggedInUser := none, stateToken := none }

/-- Go `session.SetLoggedInUser`: `s.Set(loggedUser, user); s.Save()`. -/
def setLoggedInUser (s : SessionData) (user : LoggedInUser) : SessionData :=
  { s with loggedInUser := some user }

/-- Go `session.GetLoggedInUser`: returns the stored user, or the zero value
when the key is absent. -/
def getLoggedInUser (s : SessionData) : LoggedInUser :=
  match s.loggedInUser with
  | none => emptyUser
  | some user => user

/-- Go `session.DeleteLoggedInUser`: `s.Delete(loggedUser); s.Save()`. -/
def deleteLoggedInUser (s : SessionData) : SessionData :=
  { s with loggedInUser := none }

/-- Go `session.IsLoggedIn`: `GetLoggedInUser(c).ID != ""`. -/
def isLoggedIn (s : SessionData) : Bool :=
  (getLoggedInUser s).id != ""

/-- Go `session.SetStateToken`. -/
def setStateToken (s : SessionData) (token : String) : SessionData :=
  { s with stateToken := some token }

/-- Go `session.GetStateToken`: returns the stored token, or `""` when the
key is absent. -/
def getStateToken (s : SessionData) : String :=
  match s.stateToken with
  | none => ""
  | some token => token

/-- Go `session.DeleteStateToken`: `s.Delete(stateToken); s.Save()`. -/
def deleteStateToken (s : SessionData) : SessionData :=
  { s with stateToken := none }

/-- The observable parts of an HTTP response written by the handlers under
verification: the status code, the `c.Redirect` target, the `error` field of
a `c.JSON` body, and the template name of a `c.HTML` render. -/
structure HttpResponse where
  status : Nat
  location : Option String
  jsonError : Option String
  htmlTemplate : Option String
deriving DecidableEq, Repr

/-- Response of `c.Redirect(http.StatusFound, loc)`. -/
def redirectResp (loc : String) : HttpResponse :=
  { status := 302, location := some loc, jsonError := none, htmlTemplate := none }

/-- Response of `c.JSON` with status code and an error field. -/
def jsonErrorResp (status : Nat) (msg : String) : HttpResponse :=
  { status := status, location := none, jsonError := some msg, htmlTemplate := none }

/-- Response of `c.HTML(http.StatusOK, tmpl, ...)`. -/
def htmlResp (tmpl : String) : HttpResponse :=
  { status := 200, location := none, jsonError := none, htmlTemplate := some tmpl }

/-- Outcome of running the authentication gate in front of a downstream
handler: the response produced, how many times `c.Next()` reached the
downstream handler, and the value stored under the `"loggedInUser"` context
key by `c.Set`. -/
structure GateResult where
  response : HttpResponse
  handlerCalls : Nat
  contextUser : Option LoggedInUser
deriving DecidableEq, Repr

/-- Go `authMiddleware` from `main.go`: redirect 302 to `/login` and abort when
`IsLoggedIn` is false or the session user has an empty ID; otherwise store
the user under the `"loggedInUser"` context key and run the downstream
handler once. -/
def authMiddleware (s : SessionData) (handler : LoggedInUser → HttpResponse) :
    GateResult :=
  if ¬ isLoggedIn s then
    { response := redirectResp "/login", handlerCalls := 0, contextUser := none }
  else
    let u := getLoggedInUser s
    if u.id = "" then
      { response := redirectResp "/login", handlerCalls := 0, contextUser := none }
    else
      { response := handler u, handlerCalls := 1, contextUser := some u }

/-- Go `controllers.LoginPage`: redirect home when `IsLoggedIn`, otherwise
render `login.html`; the session is not mutated. -/
def loginPage (s : SessionData) : HttpResponse × SessionData :=
  if isLoggedIn s then (redirectResp "/", s)
  else (htmlResp "login.html", s)

/-- Go `controllers.Logout`: `DeleteLoggedInUser` then redirect home; when the
session save fails, respond 500 with a JSON error and leave the persisted
session unchanged.  The `saveOk` flag stands for the result of `s.Save()`
inside `DeleteLoggedInUser`. -/
def logout (s : SessionData) (saveOk : Bool) : HttpResponse × SessionData :=
  if saveOk then (redirectResp "/", deleteLoggedInUser s)
  else (jsonErrorResp 500 "Could not delete user", s)

/-- The user of the spec scenario in §8: `{id:"u1", email:"a@b.com"}`. -/
def scenarioUser : LoggedInUser :=
  { id := "u1", name := "", email := "a@b.com", phone := "", picture := "" }

/-- Outcomes of the external calls made by `controllers.HandleGoogleCallback`
after the state check: success of `googleOauthConfig.Exchange`, of
`client.Get` on the userinfo endpoint, the userinfo HTTP status, success of
`io.ReadAll` and of `json.Unmarshal`, and the decoded profile. -/
structure OAuthExternal where
  exchangeOk : Bool
  httpGetOk : Bool
  respStatus : Nat
  readOk : Bool
  parseOk : Bool
  profile : LoggedInUser
deriving DecidableEq, Repr

/-- Go `controllers.HandleGoogleCallback`: reject with 400 when the query
state or the stored state is empty or they differ; otherwise delete the
stored state token, then walk the soft-failure ladder (missing code, failed
exchange, failed fetch, non-200 status, unreadable or unparseable body,
profile missing ID or email, each redirecting to `/login`), and on success
store the profile as the logged-in user and redirect home. -/
def handleGoogleCallback (receivedState code : String) (s : SessionData)
    (ext : OAuthExternal) : HttpResponse × SessionData :=
  let storedState := getStateToken s
  if receivedState = "" ∨ storedState = "" ∨ receivedState ≠ storedState then
    (jsonErrorResp 400 "Invalid state token", s)
  else
    let s1 := deleteStateToken s
    if code = "" then (redirectResp "/login", s1)
    else if ¬ ext.exchangeOk then (redirectResp "/login", s1)
    else if ¬ ext.httpGetOk then (redirectResp "/login", s1)
    else if ext.respStatus ≠ 200 then (redirectResp "/login", s1)
    else if ¬ ext.readOk then (redirectResp "/login", s1)
    else if ¬ ext.parseOk then (redirectResp "/login", s1)
    else if ext.profile.id = "" ∨ ext.profile.email = "" then
      (redirectResp "/login", s1)
    else (redirectResp "/", setLoggedInUser s1 ext.profile)

/-- Shared branch analysis: whenever the state check fails, the callback
answers 400 and returns the session untouched. -/
theorem callback_reject_eq (receivedState code : String) (s : SessionData)
    (ext : OAuthExternal)
    (h : receivedState = "" ∨ getStateToken s = "" ∨
      receivedState ≠ getStateToken s) :
    handleGoogleCallback receivedState code s ext =
      (jsonErrorResp 400 "Invalid state token", s) := by
  unfold handleGoogleCallback
  rw [if_pos h]

/-- Shared branch analysis: whenever the state check passes, every later
branch of the callback leaves the session with no stored state token. -/
theorem callback_after_match_stateToken (receivedState code : String)
    (s : SessionData) (ext : OAuthExternal)
    (h1 : receivedState ≠ "") (h2 : getStateToken s = receivedState) :
    ((handleGoogleCallback receivedState code s ext).2).stateToken = none := by
  have hcond : ¬(receivedState = "" ∨ getStateToken s = "" ∨
      receivedState ≠ getStateToken s) := by
    push_neg
    exact ⟨h1, fun he => h1 (h2.symm.trans he), h2.symm⟩
  unfold handleGoogleCallback
  rw [if_neg hcond]
  repeat' split
  all_goals simp [deleteStateToken, setLoggedInUser]

/-- A session whose only content is the logged-in scenario user. -/
def loggedInSession : SessionData :=
  { loggedInUser := some scenarioUser, stateToken := none }

/-- A downstream handler used to instantiate middleware theorems. -/
def constHandler : LoggedInUser → HttpResponse := fun _ => htmlResp "index.html"

/-- A concrete all-success outcome of the external OAuth calls. -/
def sampleExternal : OAuthExternal :=
  { exchangeOk := true, httpGetOk := true, respStatus := 200, readOk := true,
    parseOk := true, profile := scenarioUser }

/-- C1: the authentication gate redirects 302 to `/login` and never reaches
the downstream handler when the session lacks a non-empty logged-in-user ID,
and otherwise stores the user under the `"loggedInUser"` context key and
invokes the handler exactly once. -/
theorem authMiddleware_gate (s : SessionData)
    (handler : LoggedInUser → HttpResponse) :
    ((getLoggedInUser s).id = "" →
      authMiddleware s handler =
        { response := redirectResp "/login", handlerCalls := 0,
          contextUser := none }) ∧
    ((getLoggedInUser s).id ≠ "" →
      authMiddleware s handler =
        { response := handler (getLoggedInUser s), handlerCalls := 1,
          contextUser := some (getLoggedInUser s) }) := by
  unfold authMiddleware isLoggedIn
  constructor
  · intro h
    simp [h]
  · intro h
    simp [h]

/-- Witness for C1 at a concrete anonymous session and a concrete
authenticated session. -/
theorem authMiddleware_gate_witness :
    authMiddleware emptySession constHandler =
      { response := redirectResp "/login", handlerCalls := 0,
        contextUser := none } ∧
    authMiddleware loggedInSession constHandler =
      { response := constHandler (getLoggedInUser loggedInSession),
        handlerCalls := 1,
        contextUser := some (getLoggedInUser loggedInSession) } :=
  ⟨(authMiddleware_gate emptySession constHandler).1 (by decide),
   (authMiddleware_gate loggedInSession constHandler).2 (by decide)⟩

/-- C2: when the query state is empty, the stored state is empty, or the two
differ, the OAuth callback answers 400 and performs no session mutation. -/
theorem handleGoogleCallback_rejects_bad_state (receivedState code : String)
    (s : SessionData) (ext : OAuthExternal)
    (h : receivedState = "" ∨ getStateToken s = "" ∨
      receivedState ≠ getStateToken s) :
    handleGoogleCallback receivedState code s ext =
      (jsonErrorResp 400 "Invalid state token", s) :=
  callback_reject_eq receivedState code s ext h

/-- Witness for C2: a callback presenting a state different from the stored
one is rejected with 400 and the session is unchanged. -/
theorem handleGoogleCallback_rejects_bad_state_witness :
    handleGoogleCallback "attacker" "c0de"
        (setStateToken emptySession "tok") sampleExternal =
      (jsonErrorResp 400 "Invalid state token",
       setStateToken emptySession "tok") :=
  handleGoogleCallback_rejects_bad_state "attacker" "c0de"
    (setStateToken emptySession "tok") sampleExternal (by decide)

/-- C3: when the presented state matches the non-empty stored state, the
callback deletes the stored token whatever the later steps do, so a second
callback presenting the same state is rejected with 400 and mutates
nothing. -/
theorem handleGoogleCallback_state_single_use (receivedState code code2 : String)
    (s : SessionData) (ext ext2 : OAuthExternal)
    (h1 : receivedState ≠ "") (h2 : getStateToken s = receivedState) :
    ((handleGoogleCallback receivedState code s ext).2).stateToken = none ∧
    handleGoogleCallback receivedState code2
        (handleGoogleCallback receivedState code s ext).2 ext2 =
      (jsonErrorResp 400 "Invalid state token",
       (handleGoogleCallback receivedState code s ext).2) := by
  have hnone :=
    callback_after_match_stateToken receivedState code s ext h1 h2
  refine ⟨hnone, ?_⟩
  apply callback_reject_eq
  right; left
  unfold getStateToken
  rw [hnone]

/-- Witness for C3: after a matching callback, replaying the same state is
rejected with 400. -/
theorem handleGoogleCallback_state_single_use_witness :
    ((handleGoogleCallback "tok" "c0de" (setStateToken emptySession "tok")
        sampleExternal).2).stateToken = none ∧
    handleGoogleCallback "tok" "c0de2"
        (handleGoogleCallback "tok" "c0de" (setStateToken emptySession "tok")
          sampleExternal).2 sampleExternal =
      (jsonErrorResp 400 "Invalid state token",
       (handleGoogleCallback "tok" "c0de" (setStateToken emptySession "tok")
         sampleExternal).2) :=
  handleGoogleCallback_state_single_use "tok" "c0de" "c0de2"
    (setStateToken emptySession "tok") sampleExternal sampleExternal
    (by decide) (by decide)

/-- C5: for every session, `SetLoggedInUser` with the user
`{id:"u1", email:"a@b.com"}` makes `IsLoggedIn` true, and a subsequent
`DeleteLoggedInUser` makes `IsLoggedIn` false. -/
theorem session_login_logout_scenario (s : SessionData) :
    isLoggedIn (setLoggedInUser s scenarioUser) = true ∧
    isLoggedIn (deleteLoggedInUser (setLoggedInUser s scenarioUser)) = false := by
  constructor
  · rfl
  · rfl

/-- C7: `GET /login` while authenticated answers a 302 redirect to the home
route, renders no template, leaves the session unchanged, and repeating the
request gives the same redirect. -/
theorem loginPage_redirects_when_authenticated (s : SessionData)
    (h : isLoggedIn s = true) :
    (loginPage s).1 = redirectResp "/" ∧
    (loginPage s).1.htmlTemplate = none ∧
    (loginPage s).2 = s ∧
    loginPage (loginPage s).2 = loginPage s := by
  unfold loginPage
  simp [h, redirectResp]

/-- Witness for C7 at a concrete authenticated session. -/
theorem loginPage_redirects_when_authenticated_witness :
    (loginPage loggedInSession).1 = redirectResp "/" ∧
    (loginPage loggedInSession).1.htmlTemplate = none ∧
    (loginPage loggedInSession).2 = loggedInSession ∧
    loginPage (loginPage loggedInSession).2 = loginPage loggedInSession :=
  loginPage_redirects_when_authenticated loggedInSession (by decide)

/-- C10: `Logout` with a successful session save deletes the logged-in-user
entry and redirects 302 home on every session (anonymous included), leaves
`IsLoggedIn` false, is idempotent, and its only error path is a failed
session save answered with a 500 JSON error. -/
theorem logout_spec (s : SessionData) :
    logout s true = (redirectResp "/", deleteLoggedInUser s) ∧
    isLoggedIn (logout s true).2 = false ∧
    logout (logout s true).2 true = logout s true ∧
    logout s false = (jsonErrorResp 500 "Could not delete user", s) := by
  refine ⟨rfl, ?_, ?_, rfl⟩
  · simp [logout, deleteLoggedInUser, isLoggedIn, getLoggedInUser, emptyUser]
  · simp [logout, deleteLoggedInUser]

/-- Result record of one call to the rate limiter, mirroring the library
context handed back to the middleware: the configured limit, the remaining
quota, the window reset unix time, and whether the limit was exceeded. -/
structure LimiterCtx where
  limit : Int
  remaining : Int
  reset : Int
  reached : Bool
deriving DecidableEq, Repr

/-- Per-key counter state of the in-memory fixed-window store. -/
structure LimiterState where
  count : Nat
  reset : Int
deriving DecidableEq, Repr

/-- Modelled from the spec: the store behind `middleware.RateLimiter` is the
external `ulule/limiter` dependency, whose code is not part of this
repository; §4.2 of the spec gives its contract.  Each call increments the
counter of the current window (opening a fresh window one period long when
the previous one has expired), reports `allowed=false` exactly when the
incremented count exceeds the limit, and reports
`remaining = max(0, limit - count-in-current-window)`. -/
def limiterGet (limit : Nat) (period now : Int) (st : LimiterState) :
    LimiterState × LimiterCtx :=
  let st1 : LimiterState :=
    if st.reset ≤ now then { count := 1, reset := now + period }
    else { count := st.count + 1, reset := st.reset }
  (st1,
   { limit := limit, remaining := max 0 ((limit : Int) - (st1.count : Int)),
     reset := st1.reset, reached := decide (limit < st1.count) })

/-- Observable outcome of one pass through `middleware.RateLimiter`: the
three `X-RateLimit-*` headers it writes, the value carried by the
`X-RateLimit-Remaining` header, and either an aborting 429 JSON answer with
its `retry_after` seconds or continuation into `c.Next()`. -/
structure RLOutcome where
  headers : List (String × Int)
  remaining : Int
  status : Option Nat
  bodyError : Option String
  retryAfter : Option Int
  nextCalled : Bool
deriving DecidableEq, Repr

/-- Go `middleware.RateLimiter` body after a successful store call: write
the three headers, then on `Reached` answer 429 with a JSON error and a
`retry_after` of reset time minus now clamped to be nonnegative, aborting
the chain; otherwise continue with `c.Next()`. -/
def rlOutcome (ctx : LimiterCtx) (now : Int) : RLOutcome :=
  let headers := [("X-RateLimit-Limit", ctx.limit),
                  ("X-RateLimit-Remaining", ctx.remaining),
                  ("X-RateLimit-Reset", ctx.reset)]
  if ctx.reached then
    { headers := headers, remaining := ctx.remaining, status := some 429,
      bodyError := some "Rate limit exceeded",
      retryAfter := some (max 0 (ctx.reset - now)), nextCalled := false }
  else
    { headers := headers, remaining := ctx.remaining, status := none,
      bodyError := none, retryAfter := none, nextCalled := true }

/-- One request through the rate limiter middleware for a single client key:
consult the store (period one minute) and assemble the response. -/
def rateLimiter (limit : Nat) (now : Int) (st : LimiterState) :
    LimiterState × RLOutcome :=
  let p := limiterGet limit 60 now st
  (p.1, rlOutcome p.2 now)

/-- Store state before any request from a key: the counter is created
lazily, modelled as an already-expired empty window. -/
def rlInit (now : Int) : LimiterState := { count := 0, reset := now }

/-- Store state after `k` requests from one key, all at time `now`. -/
def rlState (limit : Nat) (now : Int) : Nat → LimiterState
  | 0 => rlInit now
  | Nat.succ k => (rateLimiter limit now (rlState limit now k)).1

/-- Outcome of the `i`-th request (1-based) from one key, all requests
falling at time `now` inside a single window. -/
def rlNth (limit : Nat) (now : Int) (i : Nat) : RLOutcome :=
  (rateLimiter limit now (rlState limit now (i - 1))).2

/-- Closed form of the store state: after `k + 1` same-window requests the
counter reads `k + 1` and the window resets one minute after `now`. -/
theorem rlState_closed (limit : Nat) (now : Int) (k : Nat) :
    rlState limit now (k + 1) = { count := k + 1, reset := now + 60 } := by
  induction k with
  | zero =>
      simp [rlState, rlInit, rateLimiter, limiterGet]
  | succ k ih =>
      show (rateLimiter limit now (rlState limit now (k + 1))).1 = _
      rw [ih]
      simp [rateLimiter, limiterGet, show ¬(now + 60 ≤ now) by omega]

/-- Closed form of the `i`-th same-window request: the limiter context
carries count `i`, so the outcome is determined by `i` alone. -/
theorem rlNth_eq (L : Nat) (now : Int) (i : Nat) (hi : 1 ≤ i) :
    rlNth L now i =
      rlOutcome
        { limit := L, remaining := max 0 ((L : Int) - (i : Int)),
          reset := now + 60, reached := decide (L < i) } now := by
  unfold rlNth rateLimiter
  cases i with
  | zero => exact absurd hi (by omega)
  | succ j =>
    cases j with
    | zero =>
        simp [rlState, rlInit, limiterGet]
    | succ m =>
        have hstate : rlState L now (m + 2 - 1) =
            { count := m + 1, reset := now + 60 } := rlState_closed L now m
        rw [hstate]
        simp [limiterGet, show ¬(now + 60 ≤ now) by omega]

/-- Projection fact: both branches of the middleware carry the limiter
remaining value in the response. -/
theorem rlOutcome_remaining (ctx : LimiterCtx) (now : Int) :
    (rlOutcome ctx now).remaining = ctx.remaining := by
  unfold rlOutcome
  split <;> rfl

/-- Projection fact: both branches of the middleware write the same three
headers. -/
theorem rlOutcome_headers (ctx : LimiterCtx) (now : Int) :
    (rlOutcome ctx now).headers =
      [("X-RateLimit-Limit", ctx.limit),
       ("X-RateLimit-Remaining", ctx.remaining),
       ("X-RateLimit-Reset", ctx.reset)] := by
  unfold rlOutcome
  split <;> rfl

/-- C4: for every limit `L` and same-window request sequence from one key,
every response carries the three `X-RateLimit-*` headers and a nonnegative
remaining value; the first `L` requests continue into `c.Next()` with the
remaining header equal to `L - i`, dropping by exactly 1 per accepted
request; the `(L+1)`-th request is aborted with 429, a JSON error body, and
a nonnegative `retry_after`. -/
theorem rateLimiter_window_spec (L : Nat) (now : Int) (i : Nat) (hi : 1 ≤ i) :
    (rlNth L now i).headers =
      [("X-RateLimit-Limit", (L : Int)),
       ("X-RateLimit-Remaining", (rlNth L now i).remaining),
       ("X-RateLimit-Reset", now + 60)] ∧
    0 ≤ (rlNth L now i).remaining ∧
    (i ≤ L →
      (rlNth L now i).nextCalled = true ∧
      (rlNth L now i).status = none ∧
      (rlNth L now i).remaining = (L : Int) - (i : Int)) ∧
    (2 ≤ i → i ≤ L →
      (rlNth L now (i - 1)).remaining - (rlNth L now i).remaining = 1) ∧
    (i = L + 1 →
      (rlNth L now i).nextCalled = false ∧
      (rlNth L now i).status = some 429 ∧
      (rlNth L now i).bodyError = some "Rate limit exceeded" ∧
      ∃ r, (rlNth L now i).retryAfter = some r ∧ 0 ≤ r) := by
  have hmain := rlNth_eq L now i hi
  refine ⟨?_, ?_, ?_, ?_, ?_⟩
  · rw [hmain, rlOutcome_headers, rlOutcome_remaining]
  · rw [hmain, rlOutcome_remaining]
    exact le_max_left 0 _
  · intro hle
    have hfalse : decide (L < i) = false := by
      simp only [decide_eq_false_iff_not]
      omega
    rw [hmain]
    unfold rlOutcome
    rw [hfalse]
    refine ⟨rfl, rfl, ?_⟩
    show max 0 ((L : Int) - (i : Int)) = (L : Int) - (i : Int)
    exact max_eq_right (by omega)
  · intro h2 hle
    have hprev := rlNth_eq L now (i - 1) (by omega)
    rw [hmain, hprev, rlOutcome_remaining, rlOutcome_remaining]
    show max 0 ((L : Int) - ((i - 1 : Nat) : Int)) -
        max 0 ((L : Int) - (i : Int)) = 1
    rw [max_eq_right (by omega : (0 : Int) ≤ (L : Int) - ((i - 1 : Nat) : Int)),
        max_eq_right (by omega : (0 : Int) ≤ (L : Int) - (i : Int))]
    omega
  · intro hLi
    subst hLi
    have htrue : decide (L < L + 1) = true := by
      simp only [decide_eq_true_eq]
      omega
    rw [hmain]
    unfold rlOutcome
    rw [htrue]
    exact ⟨rfl, rfl, rfl, max 0 (now + 60 - now), rfl, le_max_left 0 _⟩

/-- Witness for C4 with limit 2: the third same-window request from a key is
the rejected one. -/
theorem rateLimiter_window_spec_witness :
    (rlNth 2 0 3).headers =
      [("X-RateLimit-Limit", ((2 : Nat) : Int)),
       ("X-RateLimit-Remaining", (rlNth 2 0 3).remaining),
       ("X-RateLimit-Reset", (0 : Int) + 60)] ∧
    0 ≤ (rlNth 2 0 3).remaining ∧
    (3 ≤ 2 →
      (rlNth 2 0 3).nextCalled = true ∧
      (rlNth 2 0 3).status = none ∧
      (rlNth 2 0 3).remaining = ((2 : Nat) : Int) - ((3 : Nat) : Int)) ∧
    (2 ≤ 3 → 3 ≤ 2 →
      (rlNth 2 0 (3 - 1)).remaining - (rlNth 2 0 3).remaining = 1) ∧
    (3 = 2 + 1 →
      (rlNth 2 0 3).nextCalled = false ∧
      (rlNth 2 0 3).status = some 429 ∧
      (rlNth 2 0 3).bodyError = some "Rate limit exceeded" ∧
      ∃ r, (rlNth 2 0 3).retryAfter = some r ∧ 0 ≤ r) :=
  rateLimiter_window_spec 2 0 3 (by decide)

/-- A downstream run under `middleware.RequestTimeout`: the middleware
starts the rest of the chain in its own goroutine and races it against the
timeout context; with abstract completion times, the `select` takes the
`done` channel exactly when the downstream work finishes strictly before the
deadline. -/
structure DownstreamRun where
  duration : Int
  response : HttpResponse
deriving DecidableEq, Repr

/-- Go `middleware.RequestTimeout`: deliver the downstream response
untouched when it completes before the deadline, otherwise answer 408 with
a JSON error and abort. -/
def requestTimeout (timeout : Int) (run : DownstreamRun) : HttpResponse :=
  if run.duration < timeout then run.response
  else jsonErrorResp 408 "Request timeout"

/-- C6: a downstream handler finishing before the configured duration has
its response delivered untouched by the timeout stage; one that does not
complete within the duration yields a 408 JSON response. -/
theorem requestTimeout_spec (timeout : Int) (run : DownstreamRun) :
    (run.duration < timeout → requestTimeout timeout run = run.response) ∧
    (timeout ≤ run.duration →
      requestTimeout timeout run = jsonErrorResp 408 "Request timeout") := by
  constructor
  · intro h
    unfold requestTimeout
    rw [if_pos h]
  · intro h
    unfold requestTimeout
    rw [if_neg (by omega)]

/-- Witness for C6: a fast run is passed through, a slow run is timed out. -/
theorem requestTimeout_spec_witness :
    requestTimeout 10 { duration := 5, response := htmlResp "index.html" } =
      htmlResp "index.html" ∧
    requestTimeout 3 { duration := 5, response := htmlResp "index.html" } =
      jsonErrorResp 408 "Request timeout" :=
  ⟨(requestTimeout_spec 10 { duration := 5, response := htmlResp "index.html" }).1
      (by decide),
   (requestTimeout_spec 3 { duration := 5, response := htmlResp "index.html" }).2
      (by decide)⟩

/-- An environment, as read through `os.Getenv`: unset variables read as
the empty string. -/
abbrev EnvMap : Type := String → String

/-- Go `config.getEnv`: the variable when non-empty, the default
otherwise. -/
def getEnv (env : EnvMap) (key defaultValue : String) : String :=
  if env key ≠ "" then env key else defaultValue

/-- Go `config.getEnvSlice`: when the variable is non-empty, loop over the
one-element slice holding the whole raw value, keeping non-empty entries;
return the collected entries when any, the default otherwise. -/
def getEnvSlice (env : EnvMap) (key : String) (defaultValue : List String) :
    List String :=
  let value := env key
  if value ≠ "" then
    let result :=
      List.foldl (fun acc item => if item ≠ "" then acc ++ [item] else acc)
        [] [value]
    if result.length > 0 then result else defaultValue
  else defaultValue

/-- The configuration fields validation looks at, from the `config` package:
the session secret and the allowed CORS origins (the remaining fields have
no bearing on the claims verified here). -/
structure Config where
  sessionSecret : String
  allowedOrigins : List String
deriving DecidableEq, Repr

/-- The built-in development secret substituted by `validate` when `SECRET`
is absent. -/
def defaultSessionSecret : String :=
  "change-me-in-production-this-is-not-secure"

/-- Go `(*Config).validate`: substitute the built-in default secret with a
warning when the secret is empty, then reject any secret shorter than 32
bytes (the remaining checks only log warnings). -/
def validate (c : Config) : Except String Config :=
  let c1 :=
    if c.sessionSecret = "" then { c with sessionSecret := defaultSessionSecret }
    else c
  if c1.sessionSecret.utf8ByteSize < 32 then
    Except.error "session secret must be at least 32 characters long"
  else Except.ok c1

/-- Go `config.Load`, restricted to the fields above: read `SECRET` and
`ALLOWED_ORIGINS` from the environment with their defaults and validate. -/
def configLoad (env : EnvMap) : Except String Config :=
  validate
    { sessionSecret := getEnv env "SECRET" "",
      allowedOrigins :=
        getEnvSlice env "ALLOWED_ORIGINS" ["http://localhost:8080"] }

/-- The built-in default secret passes the length check. -/
theorem defaultSecret_long : ¬(defaultSessionSecret.utf8ByteSize < 32) := by
  decide

/-- Validation never touches the allowed origins. -/
theorem validate_preserves_origins (c c1 : Config)
    (h : validate c = Except.ok c1) :
    c1.allowedOrigins = c.allowedOrigins := by
  unfold validate at h
  split at h
  · dsimp only at h
    split at h
    · exact absurd h (by simp)
    · simp only [Except.ok.injEq] at h
      subst h
      rfl
  · dsimp only at h
    split at h
    · exact absurd h (by simp)
    · simp only [Except.ok.injEq] at h
      subst h
      rfl

/-- C8: configuration loading fails for every supplied non-empty secret
shorter than 32 bytes, and succeeds with the built-in default secret
substituted when the secret is absent. -/
theorem configLoad_secret_validation (env : EnvMap) :
    (env "SECRET" ≠ "" → (env "SECRET").utf8ByteSize < 32 →
      configLoad env =
        Except.error "session secret must be at least 32 characters long") ∧
    (env "SECRET" = "" →
      ∃ c, configLoad env = Except.ok c ∧
        c.sessionSecret = defaultSessionSecret) := by
  constructor
  · intro h1 h2
    unfold configLoad validate getEnv
    simp [h1, h2]
  · intro h
    refine ⟨{ sessionSecret := defaultSessionSecret,
              allowedOrigins :=
                getEnvSlice env "ALLOWED_ORIGINS" ["http://localhost:8080"] },
            ?_, rfl⟩
    unfold configLoad validate getEnv
    simp [h, defaultSecret_long]

/-- An environment supplying a too-short secret and nothing else. -/
def shortSecretEnv : EnvMap := fun key => if key = "SECRET" then "short" else ""

/-- An environment supplying no variables at all. -/
def unsetEnv : EnvMap := fun _ => ""

/-- An environment supplying a comma-separated multi-origin value. -/
def multiOriginEnv : EnvMap := fun key =>
  if key = "ALLOWED_ORIGINS" then "http://a.example,http://b.example" else ""

/-- Witness for C8: a five-byte secret is rejected; an absent secret loads
with the built-in default. -/
theorem configLoad_secret_validation_witness :
    configLoad shortSecretEnv =
      Except.error "session secret must be at least 32 characters long" ∧
    (∃ c, configLoad unsetEnv = Except.ok c ∧
      c.sessionSecret = defaultSessionSecret) :=
  ⟨(configLoad_secret_validation shortSecretEnv).1 (by decide) (by decide),
   (configLoad_secret_validation unsetEnv).2 rfl⟩

/-- C9: when `ALLOWED_ORIGINS` is non-empty the parsed allow-list is the
one-element list holding the entire raw string (the parser never splits on
commas), the parsed list has length one in every configuration, and a
successful configuration load carries exactly that list. -/
theorem configLoad_origins_no_split (env : EnvMap) :
    (env "ALLOWED_ORIGINS" ≠ "" →
      getEnvSlice env "ALLOWED_ORIGINS" ["http://localhost:8080"] =
        [env "ALLOWED_ORIGINS"]) ∧
    (getEnvSlice env "ALLOWED_ORIGINS" ["http://localhost:8080"]).length = 1 ∧
    (∀ c, configLoad env = Except.ok c →
      c.allowedOrigins =
        getEnvSlice env "ALLOWED_ORIGINS" ["http://localhost:8080"]) := by
  have hslice : env "ALLOWED_ORIGINS" ≠ "" →
      getEnvSlice env "ALLOWED_ORIGINS" ["http://localhost:8080"] =
        [env "ALLOWED_ORIGINS"] := by
    intro hk
    unfold getEnvSlice
    simp [hk]
  refine ⟨hslice, ?_, ?_⟩
  · by_cases h : env "ALLOWED_ORIGINS" = ""
    · unfold getEnvSlice
      simp [h]
    · rw [hslice h]
      rfl
  · intro c hc
    unfold configLoad at hc
    exact validate_preserves_origins _ c hc

/-- Witness for C9: a comma-separated value survives as one single
origin. -/
theorem configLoad_origins_no_split_witness :
    getEnvSlice multiOriginEnv "ALLOWED_ORIGINS" ["http://localhost:8080"] =
      [multiOriginEnv "ALLOWED_ORIGINS"] :=
  (configLoad_origins_no_split multiOriginEnv).1 (by decide)
